import Mathlib

/-!
Shallow embedding of the core of the `semantic-econ` repository:
the retrieval → indicator aggregation pipeline, the panel join and the
threshold-calibration subsystem.  Machine floats are modelled by exact
rationals, Python dicts by insertion-ordered association lists, and
fallible code by `Except`/`Option`.
-/

/-- Paragraph returned by `ConceptRetriever`
(`indicators/indicator_builder.py`, dataclass `ParagraphHit`).
The Python field `section` is a Lean keyword and is rendered `sect`. -/
structure ParagraphHit where
  faiss_id : ℤ
  similarity : ℚ
  sentence_count : ℕ
  sect : String
  call_id : String
deriving DecidableEq

/-- Per-call metadata record with the three sentence-count denominators
used by `IndicatorBuilder` (`call_metadata[call_id]`). -/
structure CallMeta where
  total_sentences : ℕ
  management_sentences : ℕ
  qa_sentences : ℕ
deriving DecidableEq

/-- The per-call indicator record returned by
`IndicatorBuilder._compute_call_indicators`. -/
structure CallIndicators where
  exposure : ℚ
  avgSim : ℚ
  intensity : ℚ
  mgmt_exposure : ℚ
  mgmt_avgSim : ℚ
  mgmt_intensity : ℚ
  qa_exposure : ℚ
  qa_avgSim : ℚ
  qa_intensity : ℚ
  n_hits_total : ℕ
  n_hits_mgmt : ℕ
  n_hits_qa : ℕ
  sentences_total_hits : ℕ
  sentences_mgmt_hits : ℕ
  sentences_qa_hits : ℕ
deriving DecidableEq

/-- `IndicatorBuilder._empty_indicators`: zero-filled indicators for calls
with missing metadata. -/
def empty_indicators : CallIndicators :=
  { exposure := 0, avgSim := 0, intensity := 0
    mgmt_exposure := 0, mgmt_avgSim := 0, mgmt_intensity := 0
    qa_exposure := 0, qa_avgSim := 0, qa_intensity := 0
    n_hits_total := 0, n_hits_mgmt := 0, n_hits_qa := 0
    sentences_total_hits := 0, sentences_mgmt_hits := 0, sentences_qa_hits := 0 }

/-- `IndicatorBuilder._compute_call_indicators`: indicators for a single
call.  `call_metadata` is the builder's metadata dict (`dict.get`
modelled by an `Option`-valued map). -/
def compute_call_indicators (call_metadata : String → Option CallMeta)
    (call_id : String) (hits : List ParagraphHit) : CallIndicators :=
  match call_metadata call_id with
  | none => empty_indicators
  | some meta =>
    let total_sent := meta.total_sentences
    let mgmt_sent := meta.management_sentences
    let qa_sent := meta.qa_sentences
    let mgmt_hits := hits.filter fun h => h.sect = "management"
    let qa_hits := hits.filter fun h => h.sect = "qa"
    let total_hit_sent : ℕ := (hits.map fun h => h.sentence_count).sum
    let sim_scores := hits.map fun h => h.similarity
    let exposure : ℚ := if total_sent > 0 then (total_hit_sent : ℚ) / (total_sent : ℚ) else 0
    let avgSim : ℚ := if sim_scores.isEmpty then 0 else sim_scores.sum / (sim_scores.length : ℚ)
    let intensity := exposure * avgSim
    let mgmt_hit_sent : ℕ := (mgmt_hits.map fun h => h.sentence_count).sum
    let mgmt_scores := mgmt_hits.map fun h => h.similarity
    let mgmt_exposure : ℚ := if mgmt_sent > 0 then (mgmt_hit_sent : ℚ) / (mgmt_sent : ℚ) else 0
    let mgmt_avgSim : ℚ := if mgmt_scores.isEmpty then 0 else mgmt_scores.sum / (mgmt_scores.length : ℚ)
    let mgmt_intensity := mgmt_exposure * mgmt_avgSim
    let qa_hit_sent : ℕ := (qa_hits.map fun h => h.sentence_count).sum
    let qa_scores := qa_hits.map fun h => h.similarity
    let qa_exposure : ℚ := if qa_sent > 0 then (qa_hit_sent : ℚ) / (qa_sent : ℚ) else 0
    let qa_avgSim : ℚ := if qa_scores.isEmpty then 0 else qa_scores.sum / (qa_scores.length : ℚ)
    let qa_intensity := qa_exposure * qa_avgSim
    { exposure := exposure, avgSim := avgSim, intensity := intensity
      mgmt_exposure := mgmt_exposure, mgmt_avgSim := mgmt_avgSim, mgmt_intensity := mgmt_intensity
      qa_exposure := qa_exposure, qa_avgSim := qa_avgSim, qa_intensity := qa_intensity
      n_hits_total := hits.length, n_hits_mgmt := mgmt_hits.length, n_hits_qa := qa_hits.length
      sentences_total_hits := total_hit_sent
      sentences_mgmt_hits := mgmt_hit_sent
      sentences_qa_hits := qa_hit_sent }

/-- `IndicatorBuilder.build_indicators`: indicators for all calls at once.
The Python dict `hits_by_call` (unique keys, insertion-ordered) is an
association list, and so is the returned dict. -/
def build_indicators (call_metadata : String → Option CallMeta)
    (hits_by_call : List (String × List ParagraphHit)) :
    List (String × CallIndicators) :=
  hits_by_call.map fun p => (p.1, compute_call_indicators call_metadata p.1 p.2)

/-- `IndicatorBuilder.build_indicators_streaming`: consumes a stream of
`(call_id, hits)` tuples and yields `(call_id, indicators)` tuples, one
`_compute_call_indicators` call per element. -/
def build_indicators_streaming (call_metadata : String → Option CallMeta)
    (hits_stream : List (String × List ParagraphHit)) :
    List (String × CallIndicators) :=
  hits_stream.map fun p => (p.1, compute_call_indicators call_metadata p.1 p.2)

/-- `IndicatorBuilder.build_indicators_batched`: maps each incoming batch
dict through `_compute_call_indicators` and yields the batch of results. -/
def build_indicators_batched (call_metadata : String → Option CallMeta)
    (hits_batches : List (List (String × List ParagraphHit))) :
    List (List (String × CallIndicators)) :=
  hits_batches.map fun batch =>
    batch.map fun p => (p.1, compute_call_indicators call_metadata p.1 p.2)

/-- Scenario A metadata record from the spec (§8) and
`tests/test_indicator.py`. -/
def scenarioA_meta : CallMeta :=
  { total_sentences := 300, management_sentences := 180, qa_sentences := 120 }

/-- Scenario A hit list: one management hit (4 sentences, similarity 0.60)
and one Q&A hit (3 sentences, similarity 0.55). -/
def scenarioA_hits : List ParagraphHit :=
  [ { faiss_id := 1, similarity := 60/100, sentence_count := 4, sect := "management", call_id := "CALL123" }
  , { faiss_id := 2, similarity := 55/100, sentence_count := 3, sect := "qa", call_id := "CALL123" } ]

/-- Scenario A metadata table: a single call `CALL123`. -/
def scenarioA_metadata : String → Option CallMeta :=
  fun c => if c = "CALL123" then some scenarioA_meta else none

/-- The corpus record attached to a search result
(`item["snippet"]` in `concepts/concept_retriever.py`).  `sentence_count`
and `section` may be absent from the record (`snippet.get` with a
default), `call_id` is always present. -/
structure Snippet where
  call_id : String
  sentence_count : Option ℕ
  sect : Option String
deriving DecidableEq

/-- One entry of `SemanticRetriever.search_by_text`'s result list:
a dict with keys `score`, `faiss_id`, `snippet`. -/
structure SearchItem where
  score : ℚ
  faiss_id : ℤ
  snippet : Snippet
deriving DecidableEq

/-- `ConceptRetriever`: the wrapped `SemanticRetriever` is an external
collaborator, modelled as the pure response function
`search_by_text : pattern → top_k → results`. -/
structure ConceptRetriever where
  search_by_text : String → ℕ → List SearchItem
  patterns : List String
  threshold : ℚ
  top_k : ℕ

/-- Construction of a `ParagraphHit` from a search result item, as in the
body of `ConceptRetriever.retrieve_hits` (and, verbatim again, in
`retrieve_hits_streaming`): missing `sentence_count` defaults to 1,
missing `section` defaults to `"management"`. -/
def hit_of_item (item : SearchItem) : ParagraphHit :=
  { faiss_id := item.faiss_id
    similarity := item.score
    sentence_count := item.snippet.sentence_count.getD 1
    sect := item.snippet.sect.getD "management"
    call_id := item.snippet.call_id }

/-- `hits_by_call.setdefault(hit.call_id, []).append(hit)` on an
insertion-ordered dict rendered as an association list: append to the
existing key's list, or add a new key at the end. -/
def append_hit : List (String × List ParagraphHit) → ParagraphHit →
    List (String × List ParagraphHit)
  | [], hit => [(hit.call_id, [hit])]
  | p :: rest, hit =>
    if p.1 = hit.call_id then (p.1, p.2 ++ [hit]) :: rest
    else p :: append_hit rest hit

/-- Dict lookup with default `[]` (reading `hits_by_call[k]`). -/
def find_hits : List (String × List ParagraphHit) → String → List ParagraphHit
  | [], _ => []
  | p :: rest, k => if p.1 = k then p.2 else find_hits rest k

/-- Body of the inner result loop shared by `retrieve_hits` and
`retrieve_hits_streaming`: skip an item below the threshold, otherwise
record its hit. -/
def process_item (threshold : ℚ) (acc : List (String × List ParagraphHit))
    (item : SearchItem) : List (String × List ParagraphHit) :=
  if item.score < threshold then acc
  else append_hit acc (hit_of_item item)

/-- Body of the outer pattern loop: one `search_by_text` call at depth
`top_k`, folded through `process_item`. -/
def process_pattern (cr : ConceptRetriever)
    (acc : List (String × List ParagraphHit)) (pattern : String) :
    List (String × List ParagraphHit) :=
  (cr.search_by_text pattern cr.top_k).foldl (process_item cr.threshold) acc

/-- `ConceptRetriever.retrieve_hits`: one search per pattern, drop results
below the threshold, group the surviving hits by `call_id` in encounter
order. -/
def retrieve_hits (cr : ConceptRetriever) : List (String × List ParagraphHit) :=
  cr.patterns.foldl (process_pattern cr) []

/-- `ConceptRetriever.retrieve_hits_streaming`: builds the same
`hits_by_call` dict over all patterns (the loop body is verbatim that of
`retrieve_hits`), then yields its `(call_id, hits)` items one at a
time. -/
def retrieve_hits_streaming (cr : ConceptRetriever) : List (String × List ParagraphHit) :=
  cr.patterns.foldl (process_pattern cr) []

/-- The batch-accumulation loop of `ConceptRetriever.retrieve_hits_batched`:
collect streamed pairs into a dict, yield it once it reaches
`batch_size` entries, and flush a final non-empty remainder. -/
def chunk_loop (batch_size : ℕ) :
    List (String × List ParagraphHit) → List (String × List ParagraphHit) →
    List (List (String × List ParagraphHit))
  | [], batch => if batch.isEmpty then [] else [batch]
  | p :: rest, batch =>
    let batch' := batch ++ [p]
    if batch_size ≤ batch'.length then batch' :: chunk_loop batch_size rest []
    else chunk_loop batch_size rest batch'

/-- `ConceptRetriever.retrieve_hits_batched`. -/
def retrieve_hits_batched (cr : ConceptRetriever) (batch_size : ℕ) :
    List (List (String × List ParagraphHit)) :=
  chunk_loop batch_size (retrieve_hits_streaming cr) []

/-- The predicate under which a search result item for pattern `p`
contributes a hit to call `k`: it survives the threshold filter and its
snippet belongs to `k`. -/
def passes (threshold : ℚ) (k : String) (item : SearchItem) : Bool :=
  !(item.score < threshold) && (item.snippet.call_id = k)

/-- A metadata record for `PanelBuilder`: a dict from field names to cell
values (cells modelled as strings; only presence and join/concatenation
behaviour matter here).  A field absent from the record is an unset
(NaN) cell in the resulting frame. -/
def MetaRecord : Type := List (String × String)

instance : DecidableEq MetaRecord := by
  unfold MetaRecord
  infer_instance

/-- Read one field of a record (`None` models a NaN cell). -/
def lookup_field (r : MetaRecord) (c : String) : Option String :=
  (r.find? fun p => p.1 = c).map Prod.snd

/-- The required columns of `PanelBuilder.metadata_to_df`. -/
def required_cols : List String := ["ticker", "year", "quarter"]

/-- Whether column `c` exists in `pd.DataFrame.from_dict(metadata,
orient="index")`: the frame's columns are the union of the records'
keys, so `c` is a column iff some record carries it. -/
def has_column (metadata : List (String × MetaRecord)) (c : String) : Bool :=
  metadata.any fun kv => (lookup_field kv.2 c).isSome

/-- `PanelBuilder.metadata_to_df`: raises `KeyError` when a required
column is missing from the frame, i.e. absent from every record;
otherwise returns the frame (rows keyed by `call_id`, cells read through
`lookup_field`). -/
def metadata_to_df (metadata : List (String × MetaRecord)) :
    Except String (List (String × MetaRecord)) :=
  let missing := required_cols.filter fun c => !(has_column metadata c)
  if missing.isEmpty then Except.ok metadata
  else Except.error "Missing metadata fields"

/-- Indicator-dict lookup (`indicators_df` row for a call, `none` when
the call has no indicator entry, i.e. a NaN row after the left join). -/
def lookup_indicators (indicators : List (String × CallIndicators)) (k : String) :
    Option CallIndicators :=
  (indicators.find? fun p => p.1 = k).map Prod.snd

/-- One row of the final panel.  `call_id` records which metadata row the
panel row came from (pandas drops this index via
`reset_index(drop=True)`; it is kept here as row provenance so that
row-level properties are statable).  `indicators` is `none` when the
left join found no indicator row (NaN indicator cells). -/
structure PanelRow where
  call_id : String
  meta : MetaRecord
  indicators : Option CallIndicators
  quarter_id : String
deriving DecidableEq

/-- Ordering on optional cells used by the sort: pandas `sort_values`
sorts NaN last. -/
def opt_lt (a b : Option String) : Bool :=
  match a, b with
  | some x, some y => x < y
  | some _, none => true
  | none, _ => false

/-- Lexicographic row comparison on (`ticker`, `year`, `quarter`) used by
`panel.sort_values(["ticker", "year", "quarter"])`. -/
def row_le (a b : PanelRow) : Bool :=
  let ta := lookup_field a.meta "ticker"
  let tb := lookup_field b.meta "ticker"
  if opt_lt ta tb then true
  else if opt_lt tb ta then false
  else
    let ya := lookup_field a.meta "year"
    let yb := lookup_field b.meta "year"
    if opt_lt ya yb then true
    else if opt_lt yb ya then false
    else !(opt_lt (lookup_field b.meta "quarter") (lookup_field a.meta "quarter"))

/-- Stable insertion of a row into a sorted list. -/
def insert_row (le : PanelRow → PanelRow → Bool) (a : PanelRow) :
    List PanelRow → List PanelRow
  | [] => [a]
  | b :: rest => if le a b then a :: b :: rest else b :: insert_row le a rest

/-- Stable sort of the panel rows (the concrete sorting algorithm is
irrelevant to the claims; only that the output is a permutation). -/
def sort_rows (le : PanelRow → PanelRow → Bool) : List PanelRow → List PanelRow
  | [] => []
  | a :: rest => insert_row le a (sort_rows le rest)

/-- `quarter_id = year.astype(str) + quarter.astype(str)`; a NaN cell
stringifies as `"nan"`. -/
def quarter_id_of (r : MetaRecord) : String :=
  (lookup_field r "year").getD "nan" ++ (lookup_field r "quarter").getD "nan"

/-- One joined row of `meta_df.join(indicators_df, how="left")`: the
metadata row drives, the indicator side is looked up by `call_id` and
left as NaN (`none`) when absent. -/
def join_row (indicators : List (String × CallIndicators))
    (kv : String × MetaRecord) : PanelRow :=
  { call_id := kv.1, meta := kv.2
    indicators := lookup_indicators indicators kv.1
    quarter_id := quarter_id_of kv.2 }

/-- `PanelBuilder.build`: `metadata_to_df`, then a left join of the
indicator rows onto the metadata rows keyed by `call_id`, then the sort
and the derived `quarter_id` column. -/
def panel_build (metadata : List (String × MetaRecord))
    (indicators : List (String × CallIndicators)) :
    Except String (List PanelRow) :=
  (metadata_to_df metadata).map fun meta_df =>
    sort_rows row_le (meta_df.map (join_row indicators))

/-- Calibration metrics record returned by
`compute_metrics_for_threshold` in
`validation/threshold_calibration.py`. -/
structure Metrics where
  threshold : ℚ
  TP : ℕ
  FP : ℕ
  FN : ℕ
  TN : ℕ
  precision : ℚ
  recall_ : ℚ
  fpr : ℚ
  f1 : ℚ
deriving DecidableEq

/-- `compute_metrics_for_threshold`: predictions `similarity ≥ τ`,
confusion counts against labels (`zip` truncates to the shorter list, as
in Python), and the guarded ratio formulas. -/
def compute_metrics_for_threshold (scores : List ℚ) (labels : List ℕ)
    (threshold : ℚ) : Metrics :=
  let predictions := scores.map fun s => if threshold ≤ s then 1 else 0
  let pairs := predictions.zip labels
  let TP := (pairs.filter fun py => py.1 = 1 && py.2 = 1).length
  let FP := (pairs.filter fun py => py.1 = 1 && py.2 = 0).length
  let FN := (pairs.filter fun py => py.1 = 0 && py.2 = 1).length
  let TN := (pairs.filter fun py => py.1 = 0 && py.2 = 0).length
  let precision : ℚ := if TP + FP > 0 then (TP : ℚ) / ((TP : ℚ) + (FP : ℚ)) else 0
  let recall_ : ℚ := if TP + FN > 0 then (TP : ℚ) / ((TP : ℚ) + (FN : ℚ)) else 0
  let fpr : ℚ := if FP + TN > 0 then (FP : ℚ) / ((FP : ℚ) + (TN : ℚ)) else 0
  let f1 : ℚ := if precision + recall_ > 0 then 2 * precision * recall_ / (precision + recall_) else 0
  { threshold := threshold, TP := TP, FP := FP, FN := FN, TN := TN
    precision := precision, recall_ := recall_, fpr := fpr, f1 := f1 }

/-- `numpy.arange(start, stop, step)` for a positive step: the values
`start + i * step` for `0 ≤ i < ⌈(stop - start) / step⌉`. -/
def np_arange (start stop step : ℚ) : List ℚ :=
  if 0 < step then
    (List.range (⌈(stop - start) / step⌉).toNat).map fun (i : ℕ) => start + (i : ℚ) * step
  else []

/-- `sweep_thresholds`: metrics at every threshold of
`np.arange(start, end + 1e-9, step)`. -/
def sweep_thresholds (scores : List ℚ) (labels : List ℕ)
    (start end_ step : ℚ) : List Metrics :=
  (np_arange start (end_ + 1/1000000000) step).map
    (compute_metrics_for_threshold scores labels)

/-- Python's `max(results, key=key)`: the first element attaining the
maximal key (later elements replace the running best only on a strict
improvement); `none` models the `ValueError` on an empty sequence. -/
def python_max {α : Type} (key : α → ℚ) : List α → Option α
  | [] => none
  | x :: xs => some (xs.foldl (fun best y => if key best < key y then y else best) x)

/-- `pick_best_threshold`: strategy `"f1"` maximizes F1, `"youden"`
maximizes recall − FPR, anything else raises (`none`). -/
def pick_best_threshold (results : List Metrics) (strategy : String) :
    Option Metrics :=
  if strategy = "f1" then python_max (fun r => r.f1) results
  else if strategy = "youden" then python_max (fun r => r.recall_ - r.fpr) results
  else none

/-- The tail of `scripts/run_threshold_calibration.py main`: extract
score and label vectors from the labeled candidates, sweep the
thresholds, pick the best by F1, and persist it via
`update_threshold_in_config` (`some τ` = the threshold written into the
topic configuration; `none` = aborted before persisting). -/
def calibration_run (labeled : List (ℚ × ℕ)) (start end_ step : ℚ) : Option ℚ :=
  let scores := labeled.map Prod.fst
  let labels := labeled.map Prod.snd
  let results := sweep_thresholds scores labels start end_ step
  (pick_best_threshold results "f1").map Metrics.threshold

/-- The expert-export branch of `scripts/run_threshold_calibration.py
main` (`--mode expert --export`): the export path's contents before the
call (`none` = no file), the user's reply to the overwrite prompt
(already passed through `.strip().lower()`, which Python applies to the
raw `input()` before the check), and the freshly exported content;
returns the path's contents after the call.  When the file exists and
the normalized reply is not `y`/`yes`, the export aborts and the file is
untouched; the prompt is only consulted when the file exists. -/
def export_expert (existing : Option String) (confirm : String)
    (content : String) : Option String :=
  match existing with
  | some old =>
    if confirm ∈ ["y", "yes"] then some content else some old
  | none => some content

/-- Reading one cell of the frame returned by `metadata_to_df`: the row
of `call` (dict keys are unique), then its `c` column (`none` = NaN). -/
def df_cell (df : List (String × MetaRecord)) (call c : String) : Option String :=
  match df.find? fun kv => kv.1 = call with
  | some kv => lookup_field kv.2 c
  | none => none

/-- The all-zero metrics record produced at threshold `τ` on an empty
labeled set. -/
def zero_metrics (τ : ℚ) : Metrics :=
  { threshold := τ, TP := 0, FP := 0, FN := 0, TN := 0
    precision := 0, recall_ := 0, fpr := 0, f1 := 0 }

/-- A retriever over an empty corpus: every search returns no items, so
no call has any hit. -/
def cr_empty : ConceptRetriever :=
  { search_by_text := fun _ _ => [], patterns := ["p"], threshold := 0, top_k := 250 }

/-- A snippet of call `CALL123` with both optional fields present. -/
def snippet123 : Snippet :=
  { call_id := "CALL123", sentence_count := some 4, sect := some "management" }

/-- A search result for `snippet123` with similarity 0.60. -/
def item123 : SearchItem :=
  { score := 60/100, faiss_id := 7, snippet := snippet123 }

/-- A retriever where the two distinct patterns `P1` and `P2` both
return the same passage `item123` above the threshold 0.5. -/
def cr_two_patterns : ConceptRetriever :=
  { search_by_text := fun p _ => if p = "P1" ∨ p = "P2" then [item123] else []
    patterns := ["P1", "P2"], threshold := 1/2, top_k := 250 }

/-- A snippet whose corpus record lacks both `sentence_count` and
`section`. -/
def snippet_defaults : Snippet :=
  { call_id := "CALLX", sentence_count := none, sect := none }

/-- A search result for `snippet_defaults` with similarity 0.75. -/
def item_defaults : SearchItem :=
  { score := 3/4, faiss_id := 9, snippet := snippet_defaults }

/-- A retriever whose single pattern returns only `item_defaults`. -/
def cr_defaults : ConceptRetriever :=
  { search_by_text := fun _ _ => [item_defaults], patterns := ["PM"]
    threshold := 1/2, top_k := 250 }

/-- A fully populated metadata record for the panel scenarios. -/
def scenarioD_record : MetaRecord :=
  [("ticker", "AAA"), ("year", "2020"), ("quarter", "1")]

/-- Scenario D metadata table: the single call `C1`. -/
def scenarioD_metadata : List (String × MetaRecord) :=
  [("C1", scenarioD_record)]

/-- A record missing the `ticker` field (but carrying the other two). -/
def record_no_ticker : MetaRecord :=
  [("year", "2021"), ("quarter", "2")]

/-- A metadata table where `ticker` is present on `C1` but missing on
the individual record `C2`. -/
def c9_metadata : List (String × MetaRecord) :=
  [("C1", scenarioD_record), ("C2", record_no_ticker)]

/-! ### Dict semantics of the grouped retrieval -/

theorem find_hits_append_hit (acc : List (String × List ParagraphHit))
    (hit : ParagraphHit) (k : String) :
    find_hits (append_hit acc hit) k
      = find_hits acc k ++ (if hit.call_id = k then [hit] else []) := by
  induction acc with
  | nil =>
    by_cases hk : hit.call_id = k <;> simp [append_hit, find_hits, hk]
  | cons p rest ih =>
    by_cases hp : p.1 = hit.call_id
    · by_cases hk : p.1 = k
      · have hck : hit.call_id = k := hp ▸ hk
        simp [append_hit, find_hits, hp, hk, hck]
      · have hck : ¬ hit.call_id = k := fun h => hk (hp.symm ▸ h)
        simp [append_hit, find_hits, hp, hk, hck]
    · by_cases hk : p.1 = k
      · have hck : ¬ hit.call_id = k := fun h => hp (hk.trans h.symm)
        have hkc : ¬ k = hit.call_id := fun h => hck h.symm
        simp [append_hit, find_hits, hp, hk, hck, hkc]
      · simp [append_hit, find_hits, hp, hk, ih]

theorem find_hits_foldl_items (th : ℚ) (k : String) (items : List SearchItem) :
    ∀ acc, find_hits (items.foldl (process_item th) acc) k
      = find_hits acc k ++ (items.filter (passes th k)).map hit_of_item := by
  induction items with
  | nil => intro acc; simp
  | cons item items ih =>
    intro acc
    rw [List.foldl_cons, ih]
    by_cases hs : item.score < th
    · have hpass : passes th k item = false := by simp [passes, hs]
      simp [process_item, hs, List.filter_cons, hpass]
    · have hacc : process_item th acc item = append_hit acc (hit_of_item item) := by
        simp [process_item, hs]
      by_cases hc : item.snippet.call_id = k
      · have hpass : passes th k item = true := by simp [passes, hs, hc]
        have hid : (hit_of_item item).call_id = k := hc
        rw [hacc, find_hits_append_hit, if_pos hid, List.filter_cons, hpass]
        simp
      · have hpass : passes th k item = false := by simp [passes, hs, hc]
        have hid : ¬ (hit_of_item item).call_id = k := hc
        rw [hacc, find_hits_append_hit, if_neg hid, List.filter_cons, hpass]
        simp

theorem find_hits_foldl_patterns (cr : ConceptRetriever) (k : String)
    (pats : List String) :
    ∀ acc, find_hits (pats.foldl (process_pattern cr) acc) k
      = find_hits acc k
        ++ ((pats.flatMap fun p =>
              (cr.search_by_text p cr.top_k).filter (passes cr.threshold k)).map
            hit_of_item) := by
  induction pats with
  | nil => intro acc; simp
  | cons p ps ih =>
    intro acc
    rw [List.foldl_cons, ih, List.flatMap_cons, List.map_append]
    rw [show process_pattern cr acc p
          = (cr.search_by_text p cr.top_k).foldl (process_item cr.threshold) acc from rfl]
    rw [find_hits_foldl_items, List.append_assoc]

/-- The hits grouped under call `k` are exactly the over-threshold
search results for `k`, pattern by pattern in order, converted by
`hit_of_item` — with no deduplication whatsoever. -/
theorem retrieve_hits_find (cr : ConceptRetriever) (k : String) :
    find_hits (retrieve_hits cr) k
      = ((cr.patterns.flatMap fun p =>
            (cr.search_by_text p cr.top_k).filter (passes cr.threshold k)).map
          hit_of_item) := by
  rw [retrieve_hits, find_hits_foldl_patterns]
  simp [find_hits]

/-! ### Batching -/

theorem chunk_loop_nil (bs : ℕ) (batch : List (String × List ParagraphHit)) :
    chunk_loop bs [] batch = if batch.isEmpty then [] else [batch] := rfl

theorem chunk_loop_cons (bs : ℕ) (p : String × List ParagraphHit)
    (rest batch : List (String × List ParagraphHit)) :
    chunk_loop bs (p :: rest) batch
      = if bs ≤ (batch ++ [p]).length then (batch ++ [p]) :: chunk_loop bs rest []
        else chunk_loop bs rest (batch ++ [p]) := rfl

theorem chunk_loop_flatten (bs : ℕ) (l : List (String × List ParagraphHit)) :
    ∀ batch, (chunk_loop bs l batch).flatten = batch ++ l := by
  induction l with
  | nil =>
    intro batch
    rw [chunk_loop_nil]
    by_cases hb : batch.isEmpty
    · rw [if_pos hb, List.isEmpty_iff.mp hb]; rfl
    · rw [if_neg hb]; simp
  | cons p rest ih =>
    intro batch
    rw [chunk_loop_cons]
    by_cases hlen : bs ≤ (batch ++ [p]).length
    · rw [if_pos hlen]
      simp [ih, List.append_assoc]
    · rw [if_neg hlen, ih]
      simp [List.append_assoc]

theorem chunk_loop_small (bs : ℕ) (l : List (String × List ParagraphHit)) :
    ∀ batch, batch.length + l.length < bs →
      chunk_loop bs l batch
        = if (batch ++ l).isEmpty then [] else [batch ++ l] := by
  induction l with
  | nil => intro batch _; rw [chunk_loop_nil]; simp
  | cons p rest ih =>
    intro batch hlt
    have h1 : (batch ++ [p]).length = batch.length + 1 := by simp
    have h2 : (p :: rest).length = rest.length + 1 := by simp
    rw [h2] at hlt
    have hlen : ¬ bs ≤ (batch ++ [p]).length := by rw [h1]; omega
    have hrec := ih (batch ++ [p]) (by rw [h1]; omega)
    rw [chunk_loop_cons, if_neg hlen, hrec]
    have hne : ((batch ++ [p]) ++ rest).isEmpty = false := by
      simp [List.isEmpty_iff]
    have hne2 : (batch ++ p :: rest).isEmpty = false := by
      simp [List.isEmpty_iff]
    rw [hne, hne2]
    simp [List.append_assoc]

/-! ### Python `max` with a key -/

theorem foldl_max_spec {α : Type} (key : α → ℚ) (l : List α) :
    ∀ b : α,
      (l.foldl (fun best y => if key best < key y then y else best) b = b
          ∧ ∀ y ∈ l, key y ≤ key b)
      ∨ (∃ l1 r l2, l = l1 ++ r :: l2
          ∧ l.foldl (fun best y => if key best < key y then y else best) b = r
          ∧ key b < key r ∧ (∀ z ∈ l1, key z < key r) ∧ ∀ z ∈ l2, key z ≤ key r) := by
  induction l with
  | nil => intro b; left; simp
  | cons y ys ih =>
    intro b
    rw [List.foldl_cons]
    by_cases h : key b < key y
    · rw [if_pos h]
      rcases ih y with ⟨he, hall⟩ | ⟨l1, r, l2, hdec, he, hlt, hpre, hpost⟩
      · right
        exact ⟨[], y, ys, by simp, he, h, by simp, hall⟩
      · right
        refine ⟨y :: l1, r, l2, by rw [hdec, List.cons_append], he, h.trans hlt, ?_, hpost⟩
        intro z hz
        rcases List.mem_cons.mp hz with hz | hz
        · exact hz ▸ hlt
        · exact hpre z hz
    · rw [if_neg h]
      rcases ih b with ⟨he, hall⟩ | ⟨l1, r, l2, hdec, he, hlt, hpre, hpost⟩
      · left
        refine ⟨he, ?_⟩
        intro z hz
        rcases List.mem_cons.mp hz with hz | hz
        · exact hz ▸ le_of_not_lt h
        · exact hall z hz
      · right
        refine ⟨y :: l1, r, l2, by rw [hdec, List.cons_append], he, hlt, ?_, hpost⟩
        intro z hz
        rcases List.mem_cons.mp hz with hz | hz
        · exact hz ▸ lt_of_le_of_lt (le_of_not_lt h) hlt
        · exact hpre z hz

/-- Python's `max(results, key=key)` returns an element of the list that
attains the maximal key, and on ties the first such element: everything
strictly before it in the list has a strictly smaller key. -/
theorem python_max_spec {α : Type} (key : α → ℚ) (l : List α) (r : α)
    (h : python_max key l = some r) :
    r ∈ l ∧ (∀ x ∈ l, key x ≤ key r)
      ∧ ∃ l1 l2, l = l1 ++ r :: l2 ∧ ∀ x ∈ l1, key x < key r := by
  match l with
  | [] => simp [python_max] at h
  | x :: xs =>
    simp only [python_max, Option.some.injEq] at h
    rcases foldl_max_spec key xs x with ⟨he, hall⟩ | ⟨l1, r', l2, hdec, he, hlt, hpre, hpost⟩
    · have hrx : r = x := by rw [← h, he]
      subst hrx
      refine ⟨List.mem_cons_self _ _, ?_, [], xs, by simp, by simp⟩
      intro z hz
      rcases List.mem_cons.mp hz with hz | hz
      · exact hz ▸ le_refl _
      · exact hall z hz
    · have hrr : r' = r := by rw [← h, he]
      subst hrr
      constructor
      · exact List.mem_cons_of_mem _ (hdec ▸ List.mem_append_right l1 (List.mem_cons_self _ _))
      constructor
      · intro z hz
        rcases List.mem_cons.mp hz with hz | hz
        · exact hz ▸ le_of_lt hlt
        · rw [hdec] at hz
          rcases List.mem_append.mp hz with hz | hz
          · exact le_of_lt (hpre z hz)
          · rcases List.mem_cons.mp hz with hz | hz
            · exact hz ▸ le_refl _
            · exact hpost z hz
      · refine ⟨x :: l1, l2, by rw [hdec, List.cons_append], ?_⟩
        intro z hz
        rcases List.mem_cons.mp hz with hz | hz
        · exact hz ▸ hlt
        · exact hpre z hz

/-- When the head already attains the maximal key, Python's `max`
returns it (ties keep the earliest element). -/
theorem python_max_of_head_max {α : Type} (key : α → ℚ) (x : α) (xs : List α)
    (h : ∀ y ∈ xs, key y ≤ key x) : python_max key (x :: xs) = some x := by
  simp only [python_max, Option.some.injEq]
  induction xs with
  | nil => simp
  | cons y ys ih =>
    rw [List.foldl_cons, if_neg (not_lt.mpr (h y (List.mem_cons_self _ _)))]
    exact ih fun z hz => h z (List.mem_cons_of_mem _ hz)

/-! ### The panel sort is a permutation -/

theorem insert_row_perm (le : PanelRow → PanelRow → Bool) (a : PanelRow) :
    ∀ l : List PanelRow, (insert_row le a l).Perm (a :: l) := by
  intro l
  induction l with
  | nil => simp [insert_row]
  | cons b rest ih =>
    rw [insert_row]
    by_cases h : le a b
    · rw [if_pos h]
    · rw [if_neg h]
      exact (List.Perm.cons b ih).trans (List.Perm.swap a b rest)

theorem sort_rows_perm (le : PanelRow → PanelRow → Bool) :
    ∀ l : List PanelRow, (sort_rows le l).Perm l := by
  intro l
  induction l with
  | nil => simp [sort_rows]
  | cons a rest ih =>
    rw [sort_rows]
    exact (insert_row_perm le a (sort_rows le rest)).trans (List.Perm.cons a ih)

/-! ### The threshold grid -/

theorem np_arange_exact (start step : ℚ) (k : ℕ)
    (h1 : 0 < step) (h9 : 1/1000000000 ≤ step) :
    np_arange start (start + (k : ℚ) * step + 1/1000000000) step
      = (List.range (k+1)).map fun (i : ℕ) => start + (i : ℚ) * step := by
  rw [np_arange, if_pos h1]
  have harg : (start + (k : ℚ) * step + 1/1000000000 - start) / step
      = (k : ℚ) + (1/1000000000) / step := by
    field_simp
    ring
  have hceil : ⌈(start + (k : ℚ) * step + 1/1000000000 - start) / step⌉ = (k : ℤ) + 1 := by
    rw [harg]
    rw [Int.ceil_eq_iff]
    constructor
    · push_cast
      have : 0 < (1/1000000000 : ℚ) / step := by positivity
      linarith
    · push_cast
      have : (1/1000000000 : ℚ) / step ≤ 1 := by
        rw [div_le_one h1]
        exact h9
      linarith
  rw [hceil]
  norm_num

/-! ### Degenerate labeled sets -/

theorem compute_metrics_empty_scores (labels : List ℕ) (τ : ℚ) :
    compute_metrics_for_threshold [] labels τ = zero_metrics τ := by
  simp [compute_metrics_for_threshold, zero_metrics]

theorem compute_metrics_empty_labels (scores : List ℚ) (τ : ℚ) :
    compute_metrics_for_threshold scores [] τ = zero_metrics τ := by
  simp [compute_metrics_for_threshold, zero_metrics]

theorem cast_sum_map {α : Type} (l : List α) (f : α → ℕ) :
    (((l.map f).sum : ℕ) : ℚ) = (l.map fun x => (f x : ℚ)).sum := by
  induction l with
  | nil => simp
  | cons x xs ih => push_cast [List.map_cons, List.sum_cons] at ih ⊢; rw [ih]

theorem qa_ne_management : ¬ ("qa" : String) = "management" := by decide

theorem management_ne_qa : ¬ ("management" : String) = "qa" := by decide

/-! ### Claims -/

/-- **C1**: for every call whose metadata record is present, the
indicator computation returns `exposure = hit sentences / total
sentences` when the denominator is positive and 0 otherwise, `avgSim` =
the mean similarity over the hits when the hit list is non-empty and 0
otherwise, `intensity = exposure * avgSim`, the same formulas on the
management-only and qa-only subsets with their own denominators, and the
hit counters; on Scenario A it returns `exposure = 7/300`,
`avgSim = 0.575`, `intensity = exposure * avgSim`,
`mgmt_exposure = 4/180`, `qa_exposure = 3/120`, `n_hits_total = 2`. -/
theorem C1_indicator_computation (cm : String → Option CallMeta) (cid : String)
    (meta : CallMeta) (hits mgmt qa : List ParagraphHit) (ind : CallIndicators)
    (hmeta : cm cid = some meta)
    (hind : ind = compute_call_indicators cm cid hits)
    (hm : mgmt = hits.filter fun h => h.sect = "management")
    (hq : qa = hits.filter fun h => h.sect = "qa") :
    (ind.exposure = if meta.total_sentences > 0
        then (hits.map fun h => (h.sentence_count : ℚ)).sum / (meta.total_sentences : ℚ)
        else 0)
    ∧ (ind.avgSim = if hits = [] then 0
        else (hits.map fun h => h.similarity).sum / (hits.length : ℚ))
    ∧ ind.intensity = ind.exposure * ind.avgSim
    ∧ (ind.mgmt_exposure = if meta.management_sentences > 0
        then (mgmt.map fun h => (h.sentence_count : ℚ)).sum / (meta.management_sentences : ℚ)
        else 0)
    ∧ (ind.mgmt_avgSim = if mgmt = [] then 0
        else (mgmt.map fun h => h.similarity).sum / (mgmt.length : ℚ))
    ∧ ind.mgmt_intensity = ind.mgmt_exposure * ind.mgmt_avgSim
    ∧ (ind.qa_exposure = if meta.qa_sentences > 0
        then (qa.map fun h => (h.sentence_count : ℚ)).sum / (meta.qa_sentences : ℚ)
        else 0)
    ∧ (ind.qa_avgSim = if qa = [] then 0
        else (qa.map fun h => h.similarity).sum / (qa.length : ℚ))
    ∧ ind.qa_intensity = ind.qa_exposure * ind.qa_avgSim
    ∧ ind.n_hits_total = hits.length
    ∧ (compute_call_indicators scenarioA_metadata "CALL123" scenarioA_hits).exposure = 7/300
    ∧ (compute_call_indicators scenarioA_metadata "CALL123" scenarioA_hits).avgSim = 575/1000
    ∧ (compute_call_indicators scenarioA_metadata "CALL123" scenarioA_hits).intensity
        = (7/300) * (575/1000)
    ∧ (compute_call_indicators scenarioA_metadata "CALL123" scenarioA_hits).mgmt_exposure = 4/180
    ∧ (compute_call_indicators scenarioA_metadata "CALL123" scenarioA_hits).qa_exposure = 3/120
    ∧ (compute_call_indicators scenarioA_metadata "CALL123" scenarioA_hits).n_hits_total = 2 := by
  subst hind hm hq
  refine ⟨?_, ?_, ?_, ?_, ?_, ?_, ?_, ?_, ?_, ?_, ?_, ?_, ?_, ?_, ?_, ?_⟩
  · simp [compute_call_indicators, hmeta, cast_sum_map, Function.comp_def]
  · simp [compute_call_indicators, hmeta, List.isEmpty_iff]
  · simp [compute_call_indicators, hmeta]
  · simp [compute_call_indicators, hmeta, cast_sum_map, Function.comp_def]
  · simp [compute_call_indicators, hmeta, List.isEmpty_iff]
  · simp [compute_call_indicators, hmeta]
  · simp [compute_call_indicators, hmeta, cast_sum_map, Function.comp_def]
  · simp [compute_call_indicators, hmeta, List.isEmpty_iff]
  · simp [compute_call_indicators, hmeta]
  · simp [compute_call_indicators, hmeta]
  · norm_num [compute_call_indicators, scenarioA_metadata, scenarioA_meta, scenarioA_hits,
      Function.comp_def, List.filter_cons, String.reduceEq, qa_ne_management, management_ne_qa]
  · norm_num [compute_call_indicators, scenarioA_metadata, scenarioA_meta, scenarioA_hits,
      Function.comp_def, List.filter_cons, String.reduceEq, qa_ne_management, management_ne_qa]
  · norm_num [compute_call_indicators, scenarioA_metadata, scenarioA_meta, scenarioA_hits,
      Function.comp_def, List.filter_cons, String.reduceEq, qa_ne_management, management_ne_qa]
  · norm_num [compute_call_indicators, scenarioA_metadata, scenarioA_meta, scenarioA_hits,
      Function.comp_def, List.filter_cons, String.reduceEq, qa_ne_management, management_ne_qa]
  · norm_num [compute_call_indicators, scenarioA_metadata, scenarioA_meta, scenarioA_hits,
      Function.comp_def, List.filter_cons, String.reduceEq, qa_ne_management, management_ne_qa]
  · norm_num [compute_call_indicators, scenarioA_metadata, scenarioA_meta, scenarioA_hits,
      Function.comp_def, List.filter_cons, String.reduceEq, qa_ne_management, management_ne_qa]

/-- Witness for C1 at the Scenario A inputs. -/
theorem C1_indicator_computation_witness :
    ((compute_call_indicators scenarioA_metadata "CALL123" scenarioA_hits).exposure
        = if scenarioA_meta.total_sentences > 0
          then (scenarioA_hits.map fun h => (h.sentence_count : ℚ)).sum
            / (scenarioA_meta.total_sentences : ℚ)
          else 0)
    ∧ (compute_call_indicators scenarioA_metadata "CALL123" scenarioA_hits).n_hits_total = 2 := by
  have h := C1_indicator_computation scenarioA_metadata "CALL123" scenarioA_meta
    scenarioA_hits (scenarioA_hits.filter fun h => h.sect = "management")
    (scenarioA_hits.filter fun h => h.sect = "qa")
    (compute_call_indicators scenarioA_metadata "CALL123" scenarioA_hits)
    (by simp [scenarioA_metadata]) rfl rfl rfl
  exact ⟨h.1, h.2.2.2.2.2.2.2.2.2.2.2.2.2.2.2⟩

/-- **C2**: when two distinct patterns each return the same passage with
similarity at or above the threshold, `retrieve_hits` records two
separate hits for that passage under its call (no deduplication), and
the aggregator's hit-sentences total consequently counts the passage's
`sentence_count` twice. -/
theorem C2_multi_pattern_double_count (cr : ConceptRetriever) (p1 p2 : String)
    (item : SearchItem) (cm : String → Option CallMeta) (meta : CallMeta)
    (hpat : cr.patterns = [p1, p2]) (hne : p1 ≠ p2)
    (h1 : cr.search_by_text p1 cr.top_k = [item])
    (h2 : cr.search_by_text p2 cr.top_k = [item])
    (hth : cr.threshold ≤ item.score)
    (hmeta : cm item.snippet.call_id = some meta) :
    find_hits (retrieve_hits cr) item.snippet.call_id
        = [hit_of_item item, hit_of_item item]
    ∧ (compute_call_indicators cm item.snippet.call_id
          (find_hits (retrieve_hits cr) item.snippet.call_id)).sentences_total_hits
        = 2 * (hit_of_item item).sentence_count := by
  have hfind : find_hits (retrieve_hits cr) item.snippet.call_id
      = [hit_of_item item, hit_of_item item] := by
    rw [retrieve_hits_find, hpat]
    simp [h1, h2, passes, not_lt.mpr hth]
  refine ⟨hfind, ?_⟩
  rw [hfind]
  simp [compute_call_indicators, hmeta]
  omega

/-- Witness for C2: patterns `P1` and `P2` both return `item123`. -/
theorem C2_multi_pattern_double_count_witness :
    find_hits (retrieve_hits cr_two_patterns) item123.snippet.call_id
        = [hit_of_item item123, hit_of_item item123]
    ∧ (compute_call_indicators scenarioA_metadata item123.snippet.call_id
          (find_hits (retrieve_hits cr_two_patterns) item123.snippet.call_id)).sentences_total_hits
        = 2 * (hit_of_item item123).sentence_count :=
  C2_multi_pattern_double_count cr_two_patterns "P1" "P2" item123
    scenarioA_metadata scenarioA_meta rfl (by decide)
    (by simp [cr_two_patterns]) (by simp [cr_two_patterns])
    (by norm_num [cr_two_patterns, item123])
    (by simp [item123, snippet123, scenarioA_metadata])

/-- **C5** (amended): the streaming variant yields exactly the pairs of
the `retrieve_hits` mapping, and for every `batch_size ≥ 1` the
concatenation of the batches equals the `retrieve_hits` mapping; a
single batch is emitted when `batch_size` exceeds the (nonzero) number
of calls, and no batch at all when there are no calls. -/
theorem C5_streaming_batch_equivalence (cr : ConceptRetriever) (batch_size : ℕ)
    (hbs : 1 ≤ batch_size) :
    retrieve_hits_streaming cr = retrieve_hits cr
    ∧ (retrieve_hits_batched cr batch_size).flatten = retrieve_hits cr
    ∧ (retrieve_hits cr ≠ [] → (retrieve_hits cr).length < batch_size →
        retrieve_hits_batched cr batch_size = [retrieve_hits cr])
    ∧ (retrieve_hits cr = [] → retrieve_hits_batched cr batch_size = []) := by
  have hse : retrieve_hits_streaming cr = retrieve_hits cr := rfl
  refine ⟨hse, ?_, ?_, ?_⟩
  · rw [retrieve_hits_batched, chunk_loop_flatten, hse]
    rfl
  · intro hne hlen
    rw [retrieve_hits_batched, hse,
      chunk_loop_small batch_size (retrieve_hits cr) [] (by simpa using hlen)]
    simp [List.isEmpty_iff, hne]
  · intro he
    rw [retrieve_hits_batched, hse, he, chunk_loop_nil]
    simp

/-- Witness for C5 at a concrete retriever and `batch_size = 3`. -/
theorem C5_streaming_batch_equivalence_witness :
    retrieve_hits_streaming cr_two_patterns = retrieve_hits cr_two_patterns
    ∧ (retrieve_hits_batched cr_two_patterns 3).flatten = retrieve_hits cr_two_patterns
    ∧ (retrieve_hits cr_two_patterns ≠ [] →
        (retrieve_hits cr_two_patterns).length < 3 →
        retrieve_hits_batched cr_two_patterns 3 = [retrieve_hits cr_two_patterns])
    ∧ (retrieve_hits cr_two_patterns = [] →
        retrieve_hits_batched cr_two_patterns 3 = []) :=
  C5_streaming_batch_equivalence cr_two_patterns 3 (by decide)

/-- Counterexample to C5 as stated: with no calls at all (empty
retrieval), `batch_size = 1` exceeds the total number of calls, yet
`retrieve_hits_batched` emits no batch rather than a single one. -/
theorem C5_single_batch_counterexample :
    (retrieve_hits cr_empty).length < 1
    ∧ retrieve_hits_batched cr_empty 1 = []
    ∧ (retrieve_hits_batched cr_empty 1).length ≠ 1 := by
  refine ⟨by decide, rfl, by decide⟩

/-- **C6**: for identical input hits and metadata, the streaming and
batched indicator builders produce, call for call, exactly the records
of the batch `build_indicators` output (exact equality over ℚ, which in
particular is agreement within 1e-6 on every numeric field). -/
theorem C6_aggregation_equivalence (cm : String → Option CallMeta)
    (pairs : List (String × List ParagraphHit))
    (batches : List (List (String × List ParagraphHit))) :
    build_indicators_streaming cm pairs = build_indicators cm pairs
    ∧ (build_indicators_batched cm batches).flatten
        = build_indicators cm batches.flatten := by
  refine ⟨rfl, ?_⟩
  rw [build_indicators_batched, build_indicators]
  exact (List.map_flatten _ batches).symm

/-- **C10**: a retrieved snippet lacking `sentence_count` is recorded
with `sentence_count = 1`, one lacking `section` with
`section = "management"`, in both the batch and the streaming retrieval
modes; such a hit is counted in the management subset. -/
theorem C10_snippet_field_defaults (cr : ConceptRetriever) (p : String)
    (item : SearchItem)
    (hp : p ∈ cr.patterns)
    (hitem : item ∈ cr.search_by_text p cr.top_k)
    (hth : ¬ item.score < cr.threshold)
    (hsc : item.snippet.sentence_count = none)
    (hsec : item.snippet.sect = none) :
    (hit_of_item item).sentence_count = 1
    ∧ (hit_of_item item).sect = "management"
    ∧ hit_of_item item ∈ find_hits (retrieve_hits cr) item.snippet.call_id
    ∧ hit_of_item item ∈ find_hits (retrieve_hits_streaming cr) item.snippet.call_id
    ∧ hit_of_item item ∈ (find_hits (retrieve_hits cr) item.snippet.call_id).filter
        (fun h => h.sect = "management") := by
  have hd1 : (hit_of_item item).sentence_count = 1 := by simp [hit_of_item, hsc]
  have hd2 : (hit_of_item item).sect = "management" := by simp [hit_of_item, hsec]
  have hmem : hit_of_item item ∈ find_hits (retrieve_hits cr) item.snippet.call_id := by
    rw [retrieve_hits_find]
    exact List.mem_map_of_mem _
      (List.mem_flatMap.mpr ⟨p, hp, List.mem_filter.mpr ⟨hitem, by simp [passes, hth]⟩⟩)
  refine ⟨hd1, hd2, hmem, ?_, ?_⟩
  · have hse : retrieve_hits_streaming cr = retrieve_hits cr := rfl
    rw [hse]
    exact hmem
  · exact List.mem_filter.mpr ⟨hmem, by simp [hd2]⟩

/-- Witness for C10 at `cr_defaults` and `item_defaults`. -/
theorem C10_snippet_field_defaults_witness :
    (hit_of_item item_defaults).sentence_count = 1
    ∧ (hit_of_item item_defaults).sect = "management"
    ∧ hit_of_item item_defaults
        ∈ find_hits (retrieve_hits cr_defaults) item_defaults.snippet.call_id
    ∧ hit_of_item item_defaults
        ∈ find_hits (retrieve_hits_streaming cr_defaults) item_defaults.snippet.call_id
    ∧ hit_of_item item_defaults
        ∈ (find_hits (retrieve_hits cr_defaults) item_defaults.snippet.call_id).filter
            (fun h => h.sect = "management") :=
  C10_snippet_field_defaults cr_defaults "PM" item_defaults
    (by simp [cr_defaults]) (by simp [cr_defaults])
    (by norm_num [cr_defaults, item_defaults]) rfl rfl

theorem filter_map_join_row (indicators : List (String × CallIndicators))
    (metadata : List (String × MetaRecord)) (c : String) :
    ((metadata.map (join_row indicators)).filter fun r => r.call_id = c)
      = (metadata.filter fun kv => kv.1 = c).map (join_row indicators) := by
  rw [List.filter_map]
  rfl

theorem length_filter_key_nodup (metadata : List (String × MetaRecord)) (c : String)
    (hnodup : (metadata.map Prod.fst).Nodup) (hc : c ∈ metadata.map Prod.fst) :
    (metadata.filter fun kv => kv.1 = c).length = 1 := by
  induction metadata with
  | nil => simp at hc
  | cons kv rest ih =>
    rw [List.map_cons, List.nodup_cons] at hnodup
    rcases List.mem_cons.mp hc with hc | hc
    · have hrest : (rest.filter fun kv0 => kv0.1 = c) = [] := by
        rw [List.filter_eq_nil_iff]
        intro kv0 hkv0
        simp only [decide_eq_true_eq]
        intro hkey
        exact hnodup.1 (hc ▸ hkey ▸ List.mem_map_of_mem Prod.fst hkv0)
      rw [List.filter_cons, if_pos (by simp [hc])]
      simp [hrest]
    · have hkey : ¬ kv.1 = c := by
        intro hkey
        exact hnodup.1 (hkey ▸ hc)
      rw [List.filter_cons, if_neg (by simp [hkey])]
      exact ih hnodup.2 hc

theorem metadata_to_df_ok_of_build (metadata : List (String × MetaRecord))
    (indicators : List (String × CallIndicators)) (panel : List PanelRow)
    (hok : panel_build metadata indicators = Except.ok panel) :
    panel = sort_rows row_le (metadata.map (join_row indicators)) := by
  rw [panel_build, metadata_to_df] at hok
  by_cases hmiss : ((required_cols.filter fun c => !(has_column metadata c)).isEmpty : Bool)
  · rw [if_pos hmiss] at hok
    simpa [Except.map] using hok.symm
  · rw [if_neg hmiss] at hok
    simp [Except.map] at hok

/-- **C3** (amended): `PanelBuilder.build` performs a left join keyed by
`call_id` with the metadata as the driving side: every `call_id` in the
metadata yields exactly one panel row, a `call_id` known only to the
indicators is dropped, and a metadata call with no indicator entry
appears with its indicator columns left unset (NaN), not zero-filled. -/
theorem C3_panel_left_join (metadata : List (String × MetaRecord))
    (indicators : List (String × CallIndicators)) (panel : List PanelRow)
    (hnodup : (metadata.map Prod.fst).Nodup)
    (hok : panel_build metadata indicators = Except.ok panel) :
    (∀ c ∈ metadata.map Prod.fst,
        (panel.filter fun r => r.call_id = c).length = 1)
    ∧ (∀ c, c ∉ metadata.map Prod.fst →
        (panel.filter fun r => r.call_id = c).length = 0)
    ∧ (∀ c ∈ metadata.map Prod.fst, lookup_indicators indicators c = none →
        ∀ r ∈ panel, r.call_id = c → r.indicators = none) := by
  have hpanel := metadata_to_df_ok_of_build metadata indicators panel hok
  have hperm := sort_rows_perm row_le (metadata.map (join_row indicators))
  refine ⟨?_, ?_, ?_⟩
  · intro c hc
    rw [hpanel, (hperm.filter _).length_eq, filter_map_join_row, List.length_map]
    exact length_filter_key_nodup metadata c hnodup hc
  · intro c hc
    rw [hpanel, (hperm.filter _).length_eq, filter_map_join_row, List.length_map,
      List.length_eq_zero, List.filter_eq_nil_iff]
    intro kv hkv
    simp only [decide_eq_true_eq]
    intro hkey
    exact hc (hkey ▸ List.mem_map_of_mem Prod.fst hkv)
  · intro c _ hnone r hr hrc
    rw [hpanel] at hr
    have hr2 := hperm.mem_iff.mp hr
    rcases List.mem_map.mp hr2 with ⟨kv, _, hkv⟩
    rw [← hkv]
    have : kv.1 = c := by rw [← hkv] at hrc; exact hrc
    simp [join_row, this, hnone]

/-- Witness for C3 at the Scenario D inputs (one metadata call, no
indicator entries). -/
theorem C3_panel_left_join_witness :
    (∀ c ∈ scenarioD_metadata.map Prod.fst,
        (((sort_rows row_le (scenarioD_metadata.map (join_row []))).filter
            fun r => r.call_id = c).length = 1))
    ∧ (∀ c, c ∉ scenarioD_metadata.map Prod.fst →
        (((sort_rows row_le (scenarioD_metadata.map (join_row []))).filter
            fun r => r.call_id = c).length = 0))
    ∧ (∀ c ∈ scenarioD_metadata.map Prod.fst, lookup_indicators [] c = none →
        ∀ r ∈ sort_rows row_le (scenarioD_metadata.map (join_row [])),
          r.call_id = c → r.indicators = none) :=
  C3_panel_left_join scenarioD_metadata []
    (sort_rows row_le (scenarioD_metadata.map (join_row [])))
    (by decide) rfl

/-- Counterexample to C3 as stated: for the metadata-only call `C1` the
panel row's indicator column is the unset (NaN) value `none`, not the
all-zero record. -/
theorem C3_all_zero_counterexample :
    (panel_build scenarioD_metadata []).toOption.map (List.map PanelRow.indicators)
        = some [none]
    ∧ (none : Option CallIndicators) ≠ some empty_indicators := by
  refine ⟨rfl, by simp⟩

theorem find_key_nodup (l : List (String × MetaRecord)) (kv : String × MetaRecord)
    (hnodup : (l.map Prod.fst).Nodup) (hm : kv ∈ l) :
    l.find? (fun p => p.1 = kv.1) = some kv := by
  induction l with
  | nil => simp at hm
  | cons p rest ih =>
    rw [List.map_cons, List.nodup_cons] at hnodup
    rcases List.mem_cons.mp hm with hm | hm
    · rw [List.find?_cons_of_pos _ (by simp [hm])]
      rw [hm]
    · have hkey : ¬ p.1 = kv.1 := by
        intro hkey
        exact hnodup.1 (hkey ▸ List.mem_map_of_mem Prod.fst hm)
      rw [List.find?_cons_of_neg _ (by simp [hkey])]
      exact ih hnodup.2 hm

/-- **C9**: `metadata_to_df` raises exactly when one of the required
fields `ticker`, `year`, `quarter` is absent from every metadata
record; a field missing only on an individual record raises no error
and leaves that record's cell unset (`none`) in the frame. -/
theorem C9_required_metadata_fields (metadata df : List (String × MetaRecord))
    (kv : String × MetaRecord) (c : String)
    (hnodup : (metadata.map Prod.fst).Nodup) :
    ((∃ e, metadata_to_df metadata = Except.error e)
        ↔ ∃ c0 ∈ required_cols, ∀ kv0 ∈ metadata, lookup_field kv0.2 c0 = none)
    ∧ (metadata_to_df metadata = Except.ok df → kv ∈ df →
        lookup_field kv.2 c = none → df_cell df kv.1 c = none) := by
  constructor
  · rw [metadata_to_df]
    by_cases hmiss : ((required_cols.filter fun c0 => !(has_column metadata c0)).isEmpty : Bool)
    · rw [if_pos hmiss]
      constructor
      · rintro ⟨e, he⟩
        exact absurd he (by simp)
      · rintro ⟨c0, hc0, hall⟩
        exfalso
        have h1 := (List.filter_eq_nil_iff.mp (List.isEmpty_iff.mp hmiss)) c0 hc0
        have h2 : has_column metadata c0 = true := by simpa using h1
        rw [has_column, List.any_eq_true] at h2
        rcases h2 with ⟨kv0, hkv0, hsome⟩
        rw [hall kv0 hkv0] at hsome
        simp at hsome
    · rw [if_neg hmiss]
      have hex : ∃ c0 ∈ required_cols, (!(has_column metadata c0)) = true := by
        by_contra hcon
        push_neg at hcon
        exact hmiss (List.isEmpty_iff.mpr (List.filter_eq_nil_iff.mpr hcon))
      rcases hex with ⟨c0, hc0, hcol⟩
      have hcol2 : has_column metadata c0 = false := by simpa using hcol
      constructor
      · intro _
        refine ⟨c0, hc0, fun kv0 hkv0 => ?_⟩
        rw [has_column, List.any_eq_false] at hcol2
        have h3 := hcol2 kv0 hkv0
        simpa [Option.isSome_iff_ne_none] using h3
      · intro _
        exact ⟨"Missing metadata fields", rfl⟩
  · intro hdf hkv hnone
    have hdfm : df = metadata := by
      rw [metadata_to_df] at hdf
      by_cases hmiss : ((required_cols.filter fun c0 => !(has_column metadata c0)).isEmpty : Bool)
      · rw [if_pos hmiss] at hdf
        injection hdf with h
        exact h.symm
      · rw [if_neg hmiss] at hdf
        exact absurd hdf (by simp)
    subst hdfm
    rw [df_cell, find_key_nodup df kv hnodup hkv]
    exact hnone

/-- Witness for C9: `ticker` is present on record `C1` and missing on
record `C2`, so no error is raised and `C2`'s ticker cell is unset. -/
theorem C9_required_metadata_fields_witness :
    ((∃ e, metadata_to_df c9_metadata = Except.error e)
        ↔ ∃ c0 ∈ required_cols, ∀ kv0 ∈ c9_metadata, lookup_field kv0.2 c0 = none)
    ∧ (metadata_to_df c9_metadata = Except.ok c9_metadata →
        ("C2", record_no_ticker) ∈ c9_metadata →
        lookup_field record_no_ticker "ticker" = none →
        df_cell c9_metadata "C2" "ticker" = none) :=
  C9_required_metadata_fields c9_metadata c9_metadata ("C2", record_no_ticker)
    "ticker" (by decide)

/-- **C7**: `sweep_thresholds` evaluates the metrics at every threshold
from `start` to `end` inclusive in ascending steps of `step` (stated for
grids where `step` divides the range and is at least the file's 1e-9
guard), and `pick_best_threshold` with strategy `"f1"` returns the
result with maximal F1 breaking ties by the first maximum in ascending
sweep order, strategy `"youden"` likewise for recall − FPR, and any
other strategy raises. -/
theorem C7_sweep_and_selection (scores : List ℚ) (labels : List ℕ)
    (start step : ℚ) (k : ℕ) (results : List Metrics) (r ry : Metrics)
    (strategy : String)
    (hstep : 0 < step) (hguard : 1/1000000000 ≤ step) :
    sweep_thresholds scores labels start (start + (k : ℚ) * step) step
        = (List.range (k+1)).map
            (fun (i : ℕ) => compute_metrics_for_threshold scores labels (start + (i : ℚ) * step))
    ∧ (pick_best_threshold results "f1" = some r →
        r ∈ results ∧ (∀ x ∈ results, x.f1 ≤ r.f1)
          ∧ ∃ l1 l2, results = l1 ++ r :: l2 ∧ ∀ x ∈ l1, x.f1 < r.f1)
    ∧ (results ≠ [] → (pick_best_threshold results "f1").isSome)
    ∧ (pick_best_threshold results "youden" = some ry →
        ry ∈ results ∧ (∀ x ∈ results, x.recall_ - x.fpr ≤ ry.recall_ - ry.fpr)
          ∧ ∃ l1 l2, results = l1 ++ ry :: l2
              ∧ ∀ x ∈ l1, x.recall_ - x.fpr < ry.recall_ - ry.fpr)
    ∧ (strategy ≠ "f1" → strategy ≠ "youden" →
        pick_best_threshold results strategy = none) := by
  refine ⟨?_, ?_, ?_, ?_, ?_⟩
  · rw [sweep_thresholds, np_arange_exact start step k hstep hguard, List.map_map]
    rfl
  · intro h
    have h2 : python_max (fun m => m.f1) results = some r := by
      simpa [pick_best_threshold] using h
    exact python_max_spec _ results r h2
  · intro hne
    match results with
    | [] => exact absurd rfl hne
    | x :: xs => simp [pick_best_threshold, python_max]
  · intro h
    have h2 : python_max (fun m => m.recall_ - m.fpr) results = some ry := by
      simpa [pick_best_threshold] using h
    exact python_max_spec _ results ry h2
  · intro h1 h2
    simp [pick_best_threshold, h1, h2]

/-- Witness for C7 on the default grid shape (k = 10 steps of 0.02 from
0.40) and a singleton result list, with an unknown strategy name. -/
theorem C7_sweep_and_selection_witness :
    sweep_thresholds [] [] (2/5) ((2/5) + ((10 : ℕ) : ℚ) * (1/50)) (1/50)
        = (List.range 11).map
            (fun (i : ℕ) => compute_metrics_for_threshold [] [] ((2/5) + (i : ℚ) * (1/50)))
    ∧ (pick_best_threshold [zero_metrics (2/5)] "f1" = some (zero_metrics (2/5)) →
        zero_metrics (2/5) ∈ [zero_metrics (2/5)]
          ∧ (∀ x ∈ [zero_metrics (2/5)], x.f1 ≤ (zero_metrics (2/5)).f1)
          ∧ ∃ l1 l2, [zero_metrics (2/5)] = l1 ++ zero_metrics (2/5) :: l2
              ∧ ∀ x ∈ l1, x.f1 < (zero_metrics (2/5)).f1)
    ∧ ([zero_metrics (2/5)] ≠ ([] : List Metrics) →
        (pick_best_threshold [zero_metrics (2/5)] "f1").isSome)
    ∧ (pick_best_threshold [zero_metrics (2/5)] "youden" = some (zero_metrics (2/5)) →
        zero_metrics (2/5) ∈ [zero_metrics (2/5)]
          ∧ (∀ x ∈ [zero_metrics (2/5)],
              x.recall_ - x.fpr ≤ (zero_metrics (2/5)).recall_ - (zero_metrics (2/5)).fpr)
          ∧ ∃ l1 l2, [zero_metrics (2/5)] = l1 ++ zero_metrics (2/5) :: l2
              ∧ ∀ x ∈ l1,
                  x.recall_ - x.fpr < (zero_metrics (2/5)).recall_ - (zero_metrics (2/5)).fpr)
    ∧ ("bogus" ≠ "f1" → "bogus" ≠ "youden" →
        pick_best_threshold [zero_metrics (2/5)] "bogus" = none) :=
  C7_sweep_and_selection [] [] (2/5) (1/50) 10 [zero_metrics (2/5)]
    (zero_metrics (2/5)) (zero_metrics (2/5)) "bogus"
    (by norm_num) (by norm_num)

theorem calibration_run_empty_default :
    calibration_run [] (2/5) (3/5) (1/50) = some (2/5) := by
  have hsweep : sweep_thresholds [] [] (2/5) (3/5) (1/50)
      = (List.range 11).map (fun (i : ℕ) => zero_metrics ((2/5) + (i : ℚ) * (1/50))) := by
    rw [sweep_thresholds,
      show (3/5 : ℚ) + 1/1000000000 = (2/5) + ((10 : ℕ) : ℚ) * (1/50) + 1/1000000000 by norm_num,
      np_arange_exact (2/5) (1/50) 10 (by norm_num) (by norm_num), List.map_map]
    simp [Function.comp_def, compute_metrics_empty_scores]
  have hpick : pick_best_threshold
      ((List.range 11).map fun (i : ℕ) => zero_metrics ((2/5) + (i : ℚ) * (1/50))) "f1"
      = some (zero_metrics ((2/5) + ((0 : ℕ) : ℚ) * (1/50))) := by
    rw [List.range_succ_eq_map, List.map_cons]
    rw [show pick_best_threshold
        ((zero_metrics ((2/5) + ((0 : ℕ) : ℚ) * (1/50)))
          :: ((List.range 10).map (Nat.succ)).map
              (fun (i : ℕ) => zero_metrics ((2/5) + (i : ℚ) * (1/50)))) "f1"
      = python_max (fun m => m.f1)
          ((zero_metrics ((2/5) + ((0 : ℕ) : ℚ) * (1/50)))
            :: ((List.range 10).map (Nat.succ)).map
                (fun i => zero_metrics ((2/5) + (i : ℚ) * (1/50)))) from rfl]
    refine python_max_of_head_max _ _ _ ?_
    intro y hy
    rcases List.mem_map.mp hy with ⟨i, _, hi⟩
    rw [← hi]
    simp [zero_metrics]
  rw [calibration_run]
  simp only [List.map_nil]
  rw [hsweep, hpick]
  simp [zero_metrics]

/-- **C4** (amended): on an empty labeled set every metric (precision,
recall, FPR, F1) is 0 rather than a division-by-zero error — in both
the empty-scores and empty-labels degenerate forms — but the
calibration run still persists a threshold (the first of the sweep)
when given zero labeled samples. -/
theorem C4_zero_labeled_metrics (scores : List ℚ) (labels : List ℕ) (τ : ℚ) :
    ((compute_metrics_for_threshold [] labels τ).precision = 0
      ∧ (compute_metrics_for_threshold [] labels τ).recall_ = 0
      ∧ (compute_metrics_for_threshold [] labels τ).fpr = 0
      ∧ (compute_metrics_for_threshold [] labels τ).f1 = 0)
    ∧ ((compute_metrics_for_threshold scores [] τ).precision = 0
      ∧ (compute_metrics_for_threshold scores [] τ).recall_ = 0
      ∧ (compute_metrics_for_threshold scores [] τ).fpr = 0
      ∧ (compute_metrics_for_threshold scores [] τ).f1 = 0)
    ∧ calibration_run [] (2/5) (3/5) (1/50) = some (2/5) := by
  refine ⟨?_, ?_, calibration_run_empty_default⟩
  · rw [compute_metrics_empty_scores]
    simp [zero_metrics]
  · rw [compute_metrics_empty_labels]
    simp [zero_metrics]

/-- Counterexample to C4 as stated: the calibration run with zero
labeled samples does persist a threshold (the sweep's first candidate
0.40 on the default 0.40–0.60/0.02 grid) instead of never persisting. -/
theorem C4_zero_samples_persist_counterexample :
    calibration_run [] (2/5) (3/5) (1/50) = some (2/5)
    ∧ calibration_run [] (2/5) (3/5) (1/50) ≠ none := by
  refine ⟨calibration_run_empty_default, ?_⟩
  rw [calibration_run_empty_default]
  simp

/-- **C8**: the expert-annotation export never overwrites an existing
file without an explicit `y`/`yes` confirmation: with a non-confirming
reply the existing contents survive, and exporting twice without
confirmation leaves the first export intact. -/
theorem C8_export_overwrite_guard (old reply1 reply2 content1 content2 : String)
    (hnc : reply2 ∉ ["y", "yes"]) :
    export_expert (some old) reply2 content2 = some old
    ∧ export_expert none reply1 content1 = some content1
    ∧ export_expert (export_expert none reply1 content1) reply2 content2
        = export_expert none reply1 content1 := by
  have h1 : export_expert (some old) reply2 content2 = some old := by
    simp [export_expert, hnc]
  have h2 : export_expert none reply1 content1 = some content1 := rfl
  refine ⟨h1, h2, ?_⟩
  rw [h2]
  simp [export_expert, hnc]

/-- Witness for C8: reply `"n"` does not confirm, so the second export
keeps the first export's contents. -/
theorem C8_export_overwrite_guard_witness :
    export_expert (some "first.xlsx") "n" "second.xlsx" = some "first.xlsx"
    ∧ export_expert none "y" "first.xlsx" = some "first.xlsx"
    ∧ export_expert (export_expert none "y" "first.xlsx") "n" "second.xlsx"
        = export_expert none "y" "first.xlsx" :=
  C8_export_overwrite_guard "first.xlsx" "y" "n" "first.xlsx" "second.xlsx"
    (by decide)
